import Mathlib

/-!
Verification of the Postpass query builder and HTTP client of the
hotosm/qgis-osm-conflator plugin.

The development shallowly embeds the two core modules:

* `postpass/query_builder.py` — pure SQL-string construction
  (`create_column_filter`, `create_bbox_filter`, `create_tag_filter`,
  `build_simple_query`);
* `postpass/client.py` — the `PostpassClient` wrapper (`run_sql`,
  `extract_buildings`).

Python floats are modelled as a pair of their numeric value and the string
`repr` used when they are interpolated into an f-string.  Python exceptions
become `Except` results; the single `PostpassClientError` class is split by
raise site into the four error kinds of the error taxonomy.  The HTTP
transport is passed in explicitly as a function, and the number of times it
is invoked is returned alongside the result so that "no network call" is
observable.
-/

namespace OSMConflator

/-- A Python float as it matters to the builder: its numeric value together
with the string produced when it is interpolated into an f-string. -/
structure PyFloat where
  val : ℚ
  str : String
deriving Repr, DecidableEq

/-- `BBox = (min_lon, min_lat, max_lon, max_lat)` from `query_builder.py`. -/
structure BBox where
  min_lon : PyFloat
  min_lat : PyFloat
  max_lon : PyFloat
  max_lat : PyFloat
deriving Repr, DecidableEq

/-- Python's `str.strip()`: drop leading and trailing whitespace. -/
def pyStrip (s : String) : String :=
  ⟨((s.data.dropWhile Char.isWhitespace).reverse.dropWhile Char.isWhitespace).reverse⟩

/-- Python's `sep.join(items)`. -/
def joinSep (sep : String) : List String → String
  | [] => ""
  | [x] => x
  | x :: y :: rest => x ++ sep ++ joinSep sep (y :: rest)

/-- `create_column_filter(columns, use_centroid)` from `query_builder.py`:
always `osm_id` and `tags`, then one `tags->>'col' as "col"` projection per
non-empty, non-`"*"` entry (stripped), then the geometry column. -/
def create_column_filter (columns : List String) (use_centroid : Bool) : String :=
  let tagCols := columns.filterMap (fun col =>
    let c := pyStrip col
    if c = "" ∨ c = "*" then none
    else some ("tags->>'" ++ c ++ "' as \"" ++ c ++ "\""))
  let geom_expr := if use_centroid then "ST_Centroid(geom) as geom" else "geom"
  joinSep ", " (["osm_id", "tags"] ++ tagCols ++ [geom_expr])

/-- `create_bbox_filter(bbox, geom_col)` from `query_builder.py`. -/
def create_bbox_filter (bbox : BBox) (geom_col : String) : String :=
  geom_col ++ " && ST_SetSRID(ST_MakeBox2D(ST_MakePoint(" ++ bbox.min_lon.str
    ++ ", " ++ bbox.min_lat.str ++ "),ST_MakePoint(" ++ bbox.max_lon.str
    ++ ", " ++ bbox.max_lat.str ++ ")), 4326)"

/-- The list comprehension in `create_tag_filter` dropping `None`/empty
entries (`[v for v in (values or []) if v is not None and v != ""]`). -/
def dropEmpty (values : List String) : List String :=
  values.filter (fun v => v ≠ "")

/-- `create_tag_filter(key, values)` from `query_builder.py`: a lone `"*"`
value collapses to the presence-only case; then no value → presence, one
value → equality, several values → `IN` list. -/
def create_tag_filter (key : String) (values : List String) : String :=
  let cleaned0 := dropEmpty values
  let cleaned := if cleaned0 = ["*"] then [] else cleaned0
  match cleaned with
  | [] => "tags ? '" ++ pyStrip key ++ "'"
  | [v] => "tags->>'" ++ pyStrip key ++ "' = '" ++ pyStrip v ++ "'"
  | v1 :: v2 :: rest =>
      "tags->>'" ++ pyStrip key ++ "' IN ("
        ++ joinSep ", " ((v1 :: v2 :: rest).map (fun v => "'" ++ pyStrip v ++ "'")) ++ ")"

/-- `build_simple_query(table, bbox, columns, tag_key, tag_values,
use_centroid)` from `query_builder.py`.  The `ValueError` raised for an
empty table becomes `Except.error` carrying the message. -/
def build_simple_query (table : String) (bbox : BBox)
    (columns : Option (List String)) (tag_key : Option String)
    (tag_values : Option (List String)) (use_centroid : Bool) :
    Except String String :=
  if table = "" then
    Except.error "table is required for Postpass query."
  else
    let select_sql := create_column_filter (columns.getD []) use_centroid
    let tagClauses :=
      match tag_key with
      | none => []
      | some k => if k = "" then [] else [create_tag_filter k (tag_values.getD [])]
    let where_sql := joinSep " AND " (create_bbox_filter bbox "geom" :: tagClauses)
    Except.ok ("SELECT " ++ select_sql ++ " FROM " ++ table ++ " WHERE " ++ where_sql)

/-- JSON values, as produced by `json.loads`. -/
inductive Json where
  | null
  | bool (b : Bool)
  | num (n : Int)
  | str (s : String)
  | arr (elems : List Json)
  | obj (fields : List (String × Json))
deriving Repr

/-- An HTTP response body classified by the outcome of UTF-8 decoding plus
`json.loads`: either it is not valid JSON text, or it parses to a value. -/
inductive Body where
  | notJson
  | json (j : Json)
deriving Repr

/-- Outcome of the `urlopen` call inside `run_sql`: an exception carrying a
message, or a response body. -/
inductive TransportResult where
  | failure (msg : String)
  | success (body : Body)
deriving Repr

/-- The error taxonomy.  In the source every raise site uses the single
`PostpassClientError` class; the sites are distinguished here by kind. -/
inductive PostpassError where
  | configurationError (msg : String)
  | invalidRequest (msg : String)
  | transportError (msg : String)
  | malformedResponse (msg : String)
deriving Repr, DecidableEq

/-- `DEFAULT_POSTPASS_ENDPOINT` from `client.py`. -/
def DEFAULT_POSTPASS_ENDPOINT : String :=
  "https://postpass.geofabrik.de/api/0.2/interpreter"

/-- `PostpassClient.__init__` state: endpoint URL and timeout. -/
structure PostpassClient where
  endpoint : String
  timeout : Nat
deriving Repr, DecidableEq

/-- Result of one `run_sql` call: the returned value or raised error, plus
how many times the HTTP transport was invoked. -/
structure RunResult where
  result : Except PostpassError Json
  transportCalls : Nat
deriving Repr

/-- `PostpassClient.run_sql(sql)` from `client.py`, parametrised by the HTTP
transport.  Mirrors the source checks in order: empty endpoint, empty/blank
SQL, transport failure, JSON parse failure, non-object payload. -/
def run_sql (c : PostpassClient) (sql : String)
    (transport : Unit → TransportResult) : RunResult :=
  if c.endpoint = "" then
    ⟨Except.error (PostpassError.configurationError "PostPass endpoint is required."), 0⟩
  else if sql = "" ∨ pyStrip sql = "" then
    ⟨Except.error (PostpassError.invalidRequest "SQL query is required."), 0⟩
  else
    match transport () with
    | TransportResult.failure msg =>
        ⟨Except.error (PostpassError.transportError ("HTTP request failed: " ++ msg)), 1⟩
    | TransportResult.success Body.notJson =>
        ⟨Except.error (PostpassError.malformedResponse "PostPass response was not valid JSON."), 1⟩
    | TransportResult.success (Body.json j) =>
        match j with
        | Json.obj fields => ⟨Except.ok (Json.obj fields), 1⟩
        | _ =>
          ⟨Except.error (PostpassError.malformedResponse "PostPass response must be a GeoJSON object."), 1⟩

/-- `PostpassClient.extract_buildings(bbox)` from `client.py`: build the
canned buildings query and run it.  The error branch is unreachable because
the table name is non-empty. -/
def extract_buildings (c : PostpassClient) (bbox : BBox)
    (transport : Unit → TransportResult) : RunResult :=
  match build_simple_query "postpass_pointpolygon" bbox (some [])
      (some "building") (some ["yes"]) false with
  | Except.error e => ⟨Except.error (PostpassError.invalidRequest e), 0⟩
  | Except.ok sql => run_sql c sql transport

/-- `s` contains `pat` as a substring. -/
def containsSub (s pat : String) : Prop :=
  ∃ a b, s = a ++ pat ++ b

/-- Number of positions of `l` at which `pat` occurs as a prefix of the
corresponding suffix (for non-empty `pat`: the occurrence count). -/
def countSub (pat : List Char) : List Char → Nat
  | [] => 0
  | c :: rest => (if (c :: rest).take pat.length = pat then 1 else 0) + countSub pat rest

/-- Occurrence count of `pat` in the string `s`. -/
def strCount (pat s : String) : Nat :=
  countSub pat.data s.data

/-- A coordinate is valid when its interpolated form is a Python float
rendering: non-empty and made of digits, sign, decimal point or exponent. -/
def ValidCoord (f : PyFloat) : Prop :=
  f.str ≠ "" ∧ ∀ c ∈ f.str.data, c ∈ ("0123456789.+-e" : String).data

/-- All four coordinates of a bounding box are valid float renderings. -/
def ValidBBox (b : BBox) : Prop :=
  ValidCoord b.min_lon ∧ ValidCoord b.min_lat ∧ ValidCoord b.max_lon ∧ ValidCoord b.max_lat

/-- A valid table name: non-empty, lower-case letters, digits, underscore
(the schema's `postpass_*` tables and views). -/
def ValidTable (t : String) : Prop :=
  t ≠ "" ∧ ∀ c ∈ t.data, c.isLower = true ∨ c.isDigit = true ∨ c = '_'

/-! ### Helper lemmas -/

lemma str_append_assoc (a b c : String) : (a ++ b) ++ c = a ++ (b ++ c) := by
  apply String.ext
  simp [String.data_append]

lemma str_append_empty (s : String) : s ++ "" = s := by
  apply String.ext
  simp [String.data_append]

lemma str_empty_append (s : String) : "" ++ s = s := by
  apply String.ext
  simp [String.data_append]

lemma sub_intro (s pat a b : String) (h : s.data = a.data ++ (pat.data ++ b.data)) :
    containsSub s pat := by
  refine ⟨a, b, ?_⟩
  apply String.ext
  simpa [String.data_append] using h

/-- An element of the joined list appears between a prefix and a suffix of
the join. -/
lemma joinSep_mem (sep : String) (f : String → String) (x : String) :
    ∀ l : List String, x ∈ l →
      ∃ a b, joinSep sep (l.map f) = a ++ f x ++ b
  | [], hx => absurd hx (List.not_mem_nil x)
  | [y], hx => by
      have hxy : x = y := by simpa using hx
      subst hxy
      exact ⟨"", "", by simp [joinSep, str_empty_append, str_append_empty]⟩
  | y :: z :: rest, hx => by
      rcases List.mem_cons.mp hx with hxy | hx'
      · subst hxy
        refine ⟨"", sep ++ joinSep sep ((z :: rest).map f), ?_⟩
        simp only [List.map_cons, joinSep, str_empty_append, str_append_assoc]
      · obtain ⟨a, b, hab⟩ := joinSep_mem sep f x (z :: rest) hx'
        refine ⟨f y ++ sep ++ a, b, ?_⟩
        simp only [List.map_cons] at hab ⊢
        simp only [joinSep]
        rw [hab]
        simp [str_append_assoc]

/-- `create_tag_filter` presence-only branch. -/
lemma tag_filter_presence (key : String) (values : List String)
    (h : dropEmpty values = [] ∨ dropEmpty values = ["*"]) :
    create_tag_filter key values = "tags ? '" ++ pyStrip key ++ "'" := by
  unfold create_tag_filter
  rcases h with h | h <;> rw [h] <;> simp

/-- `create_tag_filter` equality branch. -/
lemma tag_filter_single (key v : String) (values : List String)
    (h : dropEmpty values = [v]) (hv : v ≠ "*") :
    create_tag_filter key values =
      "tags->>'" ++ pyStrip key ++ "' = '" ++ pyStrip v ++ "'" := by
  unfold create_tag_filter
  rw [h]
  have hne : ([v] : List String) ≠ ["*"] := by simpa using hv
  simp [hne]

/-- `create_tag_filter` membership branch. -/
lemma tag_filter_many (key v1 v2 : String) (rest values : List String)
    (h : dropEmpty values = v1 :: v2 :: rest) :
    create_tag_filter key values =
      "tags->>'" ++ pyStrip key ++ "' IN ("
        ++ joinSep ", " ((v1 :: v2 :: rest).map (fun v => "'" ++ pyStrip v ++ "'")) ++ ")" := by
  unfold create_tag_filter
  rw [h]
  simp

/-- Each occurrence of a pattern starts with the pattern's first
character, so the occurrence count is at most that character's count. -/
lemma countSub_le_count (w : Char) (pat : List Char) :
    ∀ l : List Char, countSub (w :: pat) l ≤ l.count w
  | [] => by simp [countSub]
  | c :: rest => by
      have ih := countSub_le_count w pat rest
      simp only [countSub]
      by_cases h : (c :: rest).take (w :: pat).length = w :: pat
      · rw [if_pos h]
        have h' : c :: rest.take pat.length = w :: pat := by
          simpa [List.take_succ_cons] using h
        injection h' with hc hrest
        subst hc
        rw [List.count_cons_self]
        omega
      · rw [if_neg h, Nat.zero_add]
        refine le_trans ih ?_
        rw [List.count_cons]
        exact Nat.le_add_right _ _

/-- A list containing the pattern has at least one occurrence of it. -/
lemma le_countSub_append (pat b : List Char) (hne : pat ≠ []) :
    ∀ a : List Char, 1 ≤ countSub pat (a ++ (pat ++ b))
  | [] => by
      obtain ⟨p, ps, rfl⟩ : ∃ p ps, pat = p :: ps := by
        cases pat with
        | nil => exact absurd rfl hne
        | cons p ps => exact ⟨p, ps, rfl⟩
      have hc : (p :: (ps ++ b)).take (p :: ps).length = p :: ps := by
        simp [List.take_succ_cons, List.take_left]
      simp only [List.nil_append, List.cons_append, countSub, List.append_eq]
      rw [if_pos hc]
      omega
  | c :: a => by
      have ih := le_countSub_append pat b hne a
      simp only [List.cons_append, countSub]
      exact le_trans ih (Nat.le_add_left _ _)

/-- A character absent from a list has count zero. -/
lemma count_zero_of_forbidden (l : List Char) (w : Char) (h : ∀ c ∈ l, c ≠ w) :
    l.count w = 0 :=
  List.count_eq_zero.mpr (fun hw => (h w hw) rfl)

/-- A valid table name avoids any character that is neither lower-case nor
a digit nor an underscore. -/
lemma table_char_ne (t : String) (ht : ValidTable t) (w : Char)
    (h1 : w.isLower = false) (h2 : w.isDigit = false) (h3 : w ≠ '_') :
    ∀ c ∈ t.data, c ≠ w := by
  intro c hc he
  subst he
  rcases ht.2 c hc with h | h | h
  · rw [h1] at h
    exact Bool.noConfusion h
  · rw [h2] at h
    exact Bool.noConfusion h
  · exact h3 h

/-- A valid coordinate rendering contains no character outside the float
alphabet. -/
lemma coord_count_zero (f : PyFloat) (hf : ValidCoord f) (w : Char)
    (hw : w ∉ ("0123456789.+-e" : String).data) : f.str.data.count w = 0 :=
  count_zero_of_forbidden _ _ (fun c hc he => hw (he ▸ hf.2 c hc))

/-! ### Claims -/

/-- C1: for table `postpass_point`, bbox `(-1.0, -1.0, 1.0, 1.0)`, no extra
projected columns, tag key `amenity` and tag values `["fast_food"]`,
`build_simple_query` returns exactly the string of the spec's example. -/
theorem claim_C1_example_query :
    build_simple_query "postpass_point"
      ⟨⟨-1, "-1.0"⟩, ⟨-1, "-1.0"⟩, ⟨1, "1.0"⟩, ⟨1, "1.0"⟩⟩
      none (some "amenity") (some ["fast_food"]) false =
    Except.ok ("SELECT osm_id, tags, geom FROM postpass_point WHERE geom && "
      ++ "ST_SetSRID(ST_MakeBox2D(ST_MakePoint(-1.0, -1.0),ST_MakePoint(1.0, 1.0)), 4326)"
      ++ " AND tags->>'amenity' = 'fast_food'") := rfl

/-- C2: `create_tag_filter`, after dropping empty entries from `values`,
returns the presence-only predicate when the cleaned list is empty or is
exactly `["*"]`, the equality predicate for exactly one (other) entry, and
the `IN` predicate listing every cleaned value for two or more entries. -/
theorem claim_C2_tag_filter_trichotomy (key : String) (values : List String) :
    (dropEmpty values = [] ∨ dropEmpty values = ["*"] →
      create_tag_filter key values = "tags ? '" ++ pyStrip key ++ "'") ∧
    (∀ v, dropEmpty values = [v] → v ≠ "*" →
      create_tag_filter key values =
        "tags->>'" ++ pyStrip key ++ "' = '" ++ pyStrip v ++ "'") ∧
    (∀ v1 v2 rest, dropEmpty values = v1 :: v2 :: rest →
      create_tag_filter key values =
        "tags->>'" ++ pyStrip key ++ "' IN ("
          ++ joinSep ", " ((v1 :: v2 :: rest).map (fun v => "'" ++ pyStrip v ++ "'"))
          ++ ")") :=
  ⟨fun h => tag_filter_presence key values h,
   fun v h hv => tag_filter_single key v values h hv,
   fun v1 v2 rest h => tag_filter_many key v1 v2 rest values h⟩

/-- Witness for C2 at concrete inputs: one value gives equality, two give a
membership list containing both. -/
theorem claim_C2_witness :
    create_tag_filter "amenity" ["a"] = "tags->>'amenity' = 'a'" ∧
    create_tag_filter "amenity" ["a", "b"] = "tags->>'amenity' IN ('a', 'b')" :=
  ⟨((claim_C2_tag_filter_trichotomy "amenity" ["a"]).2.1 "a" rfl
      (by decide)).trans (by decide),
   ((claim_C2_tag_filter_trichotomy "amenity" ["a", "b"]).2.2 "a" "b" [] rfl).trans
      (by decide)⟩

/-- C5: `extract_buildings` is the query built for `postpass_pointpolygon`
with tag filter `building = "yes"` and no extra columns, passed to a single
`run_sql` call; the SQL contains `postpass_pointpolygon`, `building` and
`'yes'`. -/
theorem claim_C5_extract_buildings_refinement (c : PostpassClient) (bbox : BBox)
    (transport : Unit → TransportResult) :
    ∃ q, build_simple_query "postpass_pointpolygon" bbox (some [])
        (some "building") (some ["yes"]) false = Except.ok q ∧
      extract_buildings c bbox transport = run_sql c q transport ∧
      containsSub q "postpass_pointpolygon" ∧
      containsSub q "building" ∧
      containsSub q "'yes'" := by
  refine ⟨"SELECT " ++ create_column_filter [] false ++ " FROM " ++ "postpass_pointpolygon"
      ++ " WHERE " ++ joinSep " AND " [create_bbox_filter bbox "geom",
        create_tag_filter "building" ["yes"]], rfl, rfl, ?_, ?_, ?_⟩
  · apply sub_intro _ _ "SELECT osm_id, tags, geom FROM "
      (" WHERE " ++ create_bbox_filter bbox "geom" ++ " AND tags->>'building' = 'yes'")
    simp only [String.data_append, create_bbox_filter, joinSep, create_column_filter,
      create_tag_filter, List.append_assoc]
    rfl
  · apply sub_intro _ _
      ("SELECT osm_id, tags, geom FROM postpass_pointpolygon WHERE "
        ++ create_bbox_filter bbox "geom" ++ " AND tags->>'")
      ("' = 'yes'")
    simp only [String.data_append, create_bbox_filter, joinSep, create_column_filter,
      create_tag_filter, List.append_assoc]
    rfl
  · apply sub_intro _ _
      ("SELECT osm_id, tags, geom FROM postpass_pointpolygon WHERE "
        ++ create_bbox_filter bbox "geom" ++ " AND tags->>'building' = ")
      ""
    simp only [String.data_append, create_bbox_filter, joinSep, create_column_filter,
      create_tag_filter, List.append_assoc]
    rfl

/-- C7: `build_simple_query` with an empty table fails with the
`ValueError`, whatever the remaining arguments are. -/
theorem claim_C7_empty_table_error (bbox : BBox) (columns : Option (List String))
    (tag_key : Option String) (tag_values : Option (List String)) (use_centroid : Bool) :
    build_simple_query "" bbox columns tag_key tag_values use_centroid =
      Except.error "table is required for Postpass query." := rfl

/-- C8: for every key, the empty list, `["*"]` and `["*", ""]` all give the
identical presence-only predicate. -/
theorem claim_C8_wildcard_variants_identical (key : String) :
    create_tag_filter key [] = "tags ? '" ++ pyStrip key ++ "'" ∧
    create_tag_filter key ["*"] = "tags ? '" ++ pyStrip key ++ "'" ∧
    create_tag_filter key ["*", ""] = "tags ? '" ++ pyStrip key ++ "'" :=
  ⟨rfl, rfl, rfl⟩

/-- C10: with two or more cleaned values among which `"*"`, the result is
the membership predicate with the literal `'*'` in its list, never the
presence-only predicate. -/
theorem claim_C10_star_literal_in_membership (key v1 v2 : String)
    (rest values : List String)
    (h : dropEmpty values = v1 :: v2 :: rest) (hstar : "*" ∈ v1 :: v2 :: rest) :
    (∃ a b, create_tag_filter key values = a ++ "'*'" ++ b) ∧
    create_tag_filter key values ≠ "tags ? '" ++ pyStrip key ++ "'" := by
  constructor
  · obtain ⟨a, b, hab⟩ :=
      joinSep_mem ", " (fun v => "'" ++ pyStrip v ++ "'") "*" (v1 :: v2 :: rest) hstar
    refine ⟨"tags->>'" ++ pyStrip key ++ "' IN (" ++ a, b ++ ")", ?_⟩
    rw [tag_filter_many key v1 v2 rest values h, hab]
    apply String.ext
    simp only [String.data_append, List.append_assoc]
    rfl
  · rw [tag_filter_many key v1 v2 rest values h]
    intro heq
    have h5 := congrArg (fun s => s.data.take 5) heq
    simp only [String.data_append, List.append_assoc] at h5
    rw [List.take_append_of_le_length (by decide),
      List.take_append_of_le_length (by decide)] at h5
    exact absurd h5 (by decide)

/-- C3: past the precondition checks, `run_sql` wraps every transport
failure as a `TransportError`, turns a non-JSON body or a JSON non-object
into `MalformedResponse`, and returns the parsed mapping exactly when the
payload is an object. -/
theorem claim_C3_run_sql_response_handling (c : PostpassClient) (sql : String)
    (transport : Unit → TransportResult)
    (he : c.endpoint ≠ "") (hs : pyStrip sql ≠ "") :
    (∀ msg, transport () = TransportResult.failure msg →
      run_sql c sql transport =
        ⟨Except.error (PostpassError.transportError ("HTTP request failed: " ++ msg)), 1⟩) ∧
    (transport () = TransportResult.success Body.notJson →
      run_sql c sql transport =
        ⟨Except.error
          (PostpassError.malformedResponse "PostPass response was not valid JSON."), 1⟩) ∧
    (∀ j, transport () = TransportResult.success (Body.json j) →
      ((∀ fields, j ≠ Json.obj fields) →
        run_sql c sql transport =
          ⟨Except.error
            (PostpassError.malformedResponse "PostPass response must be a GeoJSON object."),
            1⟩) ∧
      (∀ fields, j = Json.obj fields →
        run_sql c sql transport = ⟨Except.ok (Json.obj fields), 1⟩)) := by
  have hor : ¬(sql = "" ∨ pyStrip sql = "") := by
    rintro (h | h)
    · exact hs (by rw [h]; rfl)
    · exact hs h
  refine ⟨?_, ?_, ?_⟩
  · intro msg htr
    unfold run_sql
    rw [if_neg he, if_neg hor, htr]
  · intro htr
    unfold run_sql
    rw [if_neg he, if_neg hor, htr]
  · intro j htr
    constructor
    · intro hobj
      unfold run_sql
      rw [if_neg he, if_neg hor, htr]
      cases j with
      | obj fields => exact absurd rfl (hobj fields)
      | null => rfl
      | bool b => rfl
      | num n => rfl
      | str s => rfl
      | arr elems => rfl
    · intro fields hj
      subst hj
      unfold run_sql
      rw [if_neg he, if_neg hor, htr]

/-- Witness for C3: a failing transport, a non-JSON body, the JSON array
`[1,2,3]`, and a JSON object, each at a concrete client and SQL string. -/
theorem claim_C3_witness :
    run_sql ⟨DEFAULT_POSTPASS_ENDPOINT, 60⟩ "SELECT 1"
        (fun _ => TransportResult.failure "timed out") =
      ⟨Except.error (PostpassError.transportError "HTTP request failed: timed out"), 1⟩ ∧
    run_sql ⟨DEFAULT_POSTPASS_ENDPOINT, 60⟩ "SELECT 1"
        (fun _ => TransportResult.success Body.notJson) =
      ⟨Except.error
        (PostpassError.malformedResponse "PostPass response was not valid JSON."), 1⟩ ∧
    run_sql ⟨DEFAULT_POSTPASS_ENDPOINT, 60⟩ "SELECT 1"
        (fun _ => TransportResult.success
          (Body.json (Json.arr [Json.num 1, Json.num 2, Json.num 3]))) =
      ⟨Except.error
        (PostpassError.malformedResponse "PostPass response must be a GeoJSON object."),
        1⟩ ∧
    run_sql ⟨DEFAULT_POSTPASS_ENDPOINT, 60⟩ "SELECT 1"
        (fun _ => TransportResult.success
          (Body.json (Json.obj [("type", Json.str "FeatureCollection")]))) =
      ⟨Except.ok (Json.obj [("type", Json.str "FeatureCollection")]), 1⟩ := by
  have hne : (DEFAULT_POSTPASS_ENDPOINT : String) ≠ "" := by decide
  have hs : pyStrip "SELECT 1" ≠ "" := by decide
  refine ⟨?_, ?_, ?_, ?_⟩
  · exact (claim_C3_run_sql_response_handling _ _ _ hne hs).1 "timed out" rfl
  · exact (claim_C3_run_sql_response_handling _ _ _ hne hs).2.1 rfl
  · exact ((claim_C3_run_sql_response_handling _ _ _ hne hs).2.2 _ rfl).1
      (fun fields h => nomatch h)
  · exact ((claim_C3_run_sql_response_handling _ _ _ hne hs).2.2 _ rfl).2 _ rfl

/-- C4: `run_sql` fails with `ConfigurationError` on an empty endpoint and
with `InvalidRequest` on blank SQL, in both cases with zero transport
invocations. -/
theorem claim_C4_run_sql_preconditions (c : PostpassClient) (sql : String)
    (transport : Unit → TransportResult) :
    (c.endpoint = "" →
      run_sql c sql transport =
        ⟨Except.error
          (PostpassError.configurationError "PostPass endpoint is required."), 0⟩) ∧
    (c.endpoint ≠ "" → pyStrip sql = "" →
      run_sql c sql transport =
        ⟨Except.error (PostpassError.invalidRequest "SQL query is required."), 0⟩) := by
  constructor
  · intro h
    unfold run_sql
    rw [if_pos h]
  · intro h hsql
    unfold run_sql
    rw [if_neg h, if_pos (Or.inr hsql)]

/-- Witness for C4: empty endpoint, then empty and whitespace-only SQL. -/
theorem claim_C4_witness :
    run_sql ⟨"", 60⟩ "SELECT 1"
        (fun _ => TransportResult.success (Body.json (Json.obj []))) =
      ⟨Except.error
        (PostpassError.configurationError "PostPass endpoint is required."), 0⟩ ∧
    run_sql ⟨DEFAULT_POSTPASS_ENDPOINT, 60⟩ ""
        (fun _ => TransportResult.success (Body.json (Json.obj []))) =
      ⟨Except.error (PostpassError.invalidRequest "SQL query is required."), 0⟩ ∧
    run_sql ⟨DEFAULT_POSTPASS_ENDPOINT, 60⟩ "   "
        (fun _ => TransportResult.success (Body.json (Json.obj []))) =
      ⟨Except.error (PostpassError.invalidRequest "SQL query is required."), 0⟩ :=
  ⟨(claim_C4_run_sql_preconditions _ _ _).1 rfl,
   (claim_C4_run_sql_preconditions _ _ _).2 (by decide) rfl,
   (claim_C4_run_sql_preconditions _ _ _).2 (by decide) rfl⟩

/-- C6: for a valid `(table, bbox)` with no tag filter, the query is the
`SELECT ... FROM table WHERE <bbox filter>` composition: it starts with
`SELECT`, contains `WHERE` exactly once, and has no semicolon at all (in
particular no trailing terminator). -/
theorem claim_C6_no_tagfilter_query_shape (table : String) (bbox : BBox)
    (ht : ValidTable table) (hb : ValidBBox bbox) :
    ∃ q, build_simple_query table bbox none none none false = Except.ok q ∧
      q = "SELECT osm_id, tags, geom FROM " ++ table ++ " WHERE "
        ++ create_bbox_filter bbox "geom" ∧
      (∃ r, q = "SELECT" ++ r) ∧
      strCount "WHERE" q = 1 ∧
      ';' ∉ q.data := by
  refine ⟨"SELECT osm_id, tags, geom FROM " ++ table ++ " WHERE "
    ++ create_bbox_filter bbox "geom", ?_, rfl, ?_, ?_, ?_⟩
  · unfold build_simple_query
    rw [if_neg ht.1]
    rfl
  · exact ⟨" osm_id, tags, geom FROM " ++ table ++ " WHERE "
      ++ create_bbox_filter bbox "geom", by
        apply String.ext
        simp only [String.data_append, List.append_assoc]
        rfl⟩
  · have hcount :
        ("SELECT osm_id, tags, geom FROM " ++ table ++ " WHERE "
          ++ create_bbox_filter bbox "geom").data.count 'W' = 1 := by
      simp only [String.data_append, create_bbox_filter, List.append_assoc,
        List.count_append]
      rw [count_zero_of_forbidden table.data 'W'
          (table_char_ne table ht 'W' (by decide) (by decide) (by decide)),
        coord_count_zero _ hb.1 'W' (by decide),
        coord_count_zero _ hb.2.1 'W' (by decide),
        coord_count_zero _ hb.2.2.1 'W' (by decide),
        coord_count_zero _ hb.2.2.2 'W' (by decide)]
      decide
    have hle : strCount "WHERE"
        ("SELECT osm_id, tags, geom FROM " ++ table ++ " WHERE "
          ++ create_bbox_filter bbox "geom") ≤ 1 := by
      unfold strCount
      have hd : ("WHERE" : String).data = 'W' :: ("HERE" : String).data := rfl
      rw [hd]
      exact le_trans (countSub_le_count 'W' ("HERE" : String).data _)
        (le_of_eq hcount)
    have hge : 1 ≤ strCount "WHERE"
        ("SELECT osm_id, tags, geom FROM " ++ table ++ " WHERE "
          ++ create_bbox_filter bbox "geom") := by
      unfold strCount
      have heq :
          ("SELECT osm_id, tags, geom FROM " ++ table ++ " WHERE "
            ++ create_bbox_filter bbox "geom").data =
          (("SELECT osm_id, tags, geom FROM " : String).data ++ table.data ++ [' '])
            ++ (("WHERE" : String).data
              ++ (' ' :: (create_bbox_filter bbox "geom").data)) := by
        simp only [String.data_append, List.append_assoc]
        rfl
      rw [heq]
      exact le_countSub_append ("WHERE" : String).data _ (by decide) _
    omega
  · intro hmem
    have hzero :
        ("SELECT osm_id, tags, geom FROM " ++ table ++ " WHERE "
          ++ create_bbox_filter bbox "geom").data.count ';' = 0 := by
      simp only [String.data_append, create_bbox_filter, List.append_assoc,
        List.count_append]
      rw [count_zero_of_forbidden table.data ';'
          (table_char_ne table ht ';' (by decide) (by decide) (by decide)),
        coord_count_zero _ hb.1 ';' (by decide),
        coord_count_zero _ hb.2.1 ';' (by decide),
        coord_count_zero _ hb.2.2.1 ';' (by decide),
        coord_count_zero _ hb.2.2.2 ';' (by decide)]
      decide
    exact List.count_eq_zero.mp hzero hmem

/-- Witness for C6 at a concrete valid table and bbox. -/
theorem claim_C6_witness :
    ValidTable "postpass_point" ∧
    ValidBBox ⟨⟨-1, "-1.0"⟩, ⟨-1, "-1.0"⟩, ⟨1, "1.0"⟩, ⟨1, "1.0"⟩⟩ ∧
    (∃ q, build_simple_query "postpass_point"
        ⟨⟨-1, "-1.0"⟩, ⟨-1, "-1.0"⟩, ⟨1, "1.0"⟩, ⟨1, "1.0"⟩⟩
        none none none false = Except.ok q ∧
      q = "SELECT osm_id, tags, geom FROM " ++ "postpass_point" ++ " WHERE "
        ++ create_bbox_filter ⟨⟨-1, "-1.0"⟩, ⟨-1, "-1.0"⟩, ⟨1, "1.0"⟩, ⟨1, "1.0"⟩⟩ "geom" ∧
      (∃ r, q = "SELECT" ++ r) ∧
      strCount "WHERE" q = 1 ∧
      ';' ∉ q.data) :=
  ⟨by unfold ValidTable; decide, by unfold ValidBBox ValidCoord; decide,
   claim_C6_no_tagfilter_query_shape "postpass_point"
     ⟨⟨-1, "-1.0"⟩, ⟨-1, "-1.0"⟩, ⟨1, "1.0"⟩, ⟨1, "1.0"⟩⟩
     (by unfold ValidTable; decide) (by unfold ValidBBox ValidCoord; decide)⟩

/-- C9 counterexample: a bounding box violating both ordering invariants is
not rejected by the core — `build_simple_query` succeeds and produces the
query string instead of failing with an `InvalidRequest` error. -/
theorem claim_C9_counterexample :
    (BBox.mk ⟨1, "1.0"⟩ ⟨1, "1.0"⟩ ⟨-1, "-1.0"⟩ ⟨-1, "-1.0"⟩).min_lon.val ≥
      (BBox.mk ⟨1, "1.0"⟩ ⟨1, "1.0"⟩ ⟨-1, "-1.0"⟩ ⟨-1, "-1.0"⟩).max_lon.val ∧
    (BBox.mk ⟨1, "1.0"⟩ ⟨1, "1.0"⟩ ⟨-1, "-1.0"⟩ ⟨-1, "-1.0"⟩).min_lat.val ≥
      (BBox.mk ⟨1, "1.0"⟩ ⟨1, "1.0"⟩ ⟨-1, "-1.0"⟩ ⟨-1, "-1.0"⟩).max_lat.val ∧
    build_simple_query "postpass_point"
      (BBox.mk ⟨1, "1.0"⟩ ⟨1, "1.0"⟩ ⟨-1, "-1.0"⟩ ⟨-1, "-1.0"⟩)
      none none none false =
    Except.ok ("SELECT osm_id, tags, geom FROM postpass_point WHERE geom && "
      ++ "ST_SetSRID(ST_MakeBox2D(ST_MakePoint(1.0, 1.0),ST_MakePoint(-1.0, -1.0)), 4326)") :=
  ⟨by norm_num, by norm_num, rfl⟩

/-- C9 amended: the core performs no bounding-box ordering validation —
for every bbox whose ordering violates the invariant, `build_simple_query`
still succeeds (given a non-empty table) and returns the composed query. -/
theorem claim_C9_no_bbox_validation (table : String) (bbox : BBox)
    (columns : Option (List String)) (tag_key : Option String)
    (tag_values : Option (List String)) (use_centroid : Bool)
    (h : table ≠ "")
    (_hbad : bbox.min_lon.val ≥ bbox.max_lon.val ∨ bbox.min_lat.val ≥ bbox.max_lat.val) :
    ∃ q, build_simple_query table bbox columns tag_key tag_values use_centroid =
      Except.ok q := by
  unfold build_simple_query
  rw [if_neg h]
  exact ⟨_, rfl⟩

/-- Witness for the amended C9 at a concrete inverted bbox. -/
theorem claim_C9_witness :
    ∃ q, build_simple_query "postpass_point"
      (BBox.mk ⟨1, "1.0"⟩ ⟨1, "1.0"⟩ ⟨-1, "-1.0"⟩ ⟨-1, "-1.0"⟩)
      none none none false = Except.ok q :=
  claim_C9_no_bbox_validation "postpass_point"
    (BBox.mk ⟨1, "1.0"⟩ ⟨1, "1.0"⟩ ⟨-1, "-1.0"⟩ ⟨-1, "-1.0"⟩)
    none none none false (by decide) (Or.inl (by norm_num))

/-- Witness for C10 at `key = "amenity"`, `values = ["*", "a"]`. -/
theorem claim_C10_witness :
    (∃ a b, create_tag_filter "amenity" ["*", "a"] = a ++ "'*'" ++ b) ∧
    create_tag_filter "amenity" ["*", "a"] ≠ "tags ? '" ++ pyStrip "amenity" ++ "'" :=
  claim_C10_star_literal_in_membership "amenity" "*" "a" [] ["*", "a"] rfl
    (by decide)

end OSMConflator
